import Mathlib

/-!
Shallow embedding of the blender-unity-validator core (checkers, registry,
orchestrator) and proofs about it.

Conventions of the embedding:
* Python floats are embedded as exact rationals (`ℚ`); a decimal literal in
  the source becomes the corresponding rational.
* Fallible Python code (raising `ValueError`, or a `check()` that may raise)
  is embedded as `Except String _`.
* A Python `dict` used as an ordered mapping is embedded as an association
  list with Python's assignment semantics (replace in place, else append).
* Numeric-to-string formatting (`:.3f`, `:.1%`, `str(float)`) is abstracted
  by `toString` on `ℚ` after the rounding the source performs; no theorem
  depends on the text of such formatted fragments.
-/

/-! ## Data model (`core/severity.py`, `core/result.py`) -/

/-- Embeds `core/severity.py`: `Severity(IntEnum)` with `INFO = 1 < WARNING = 2 < ERROR = 3`. -/
inductive Severity
  | INFO
  | WARNING
  | ERROR
deriving DecidableEq

/-- The `IntEnum` value of a severity (`auto()` numbering from 1). -/
def Severity.value : Severity → ℕ
  | .INFO => 1
  | .WARNING => 2
  | .ERROR => 3

/-- A 3-component vector of exact rationals (embeds `mathutils.Vector` /
Blender scale, rotation and coordinate triples). -/
structure Vec3 where
  x : ℚ
  y : ℚ
  z : ℚ
deriving DecidableEq

def Vec3.zero : Vec3 := ⟨0, 0, 0⟩

def Vec3.add (a b : Vec3) : Vec3 := ⟨a.x + b.x, a.y + b.y, a.z + b.z⟩

def Vec3.sub (a b : Vec3) : Vec3 := ⟨a.x - b.x, a.y - b.y, a.z - b.z⟩

def Vec3.smul (q : ℚ) (v : Vec3) : Vec3 := ⟨q * v.x, q * v.y, q * v.z⟩

def Vec3.dot (a b : Vec3) : ℚ := a.x * b.x + a.y * b.y + a.z * b.z

/-- One structured value stored in a result's `details` dict. -/
inductive Detail
  | nat (n : ℕ)
  | rat (q : ℚ)
  | bool (b : Bool)
  | str (s : String)
  | natList (l : List ℕ)
  | ratList (l : List ℚ)
  | strList (l : List String)
  | vec (v : Vec3)
deriving DecidableEq

/-- Embeds `core/result.py`: the `ValidationResult` dataclass fields.  `details` is
an ordered string-keyed mapping. -/
structure ValidationResult where
  checker_name : String
  severity : Severity
  object_name : String
  message : String
  details : List (String × Detail)
  fix_hint : Option String
deriving DecidableEq

/-- Lookup of one key in a result's `details` mapping (first match). -/
def findDetail (r : ValidationResult) (k : String) : Option Detail :=
  (r.details.find? (fun p => p.fst == k)).map Prod.snd

/-- Embeds `ValidationResult.__post_init__`: construction raises `ValueError` when
`checker_name` or `message` is empty (Python truthiness of a string is
non-emptiness); no other field is validated. -/
def mkValidationResult (checker_name : String) (severity : Severity)
    (object_name : String) (message : String)
    (details : List (String × Detail)) (fix_hint : Option String) :
    Except String ValidationResult :=
  if checker_name = "" then .error "checker_name cannot be empty"
  else if message = "" then .error "message cannot be empty"
  else .ok ⟨checker_name, severity, object_name, message, details, fix_hint⟩

/-- Python's `round(q, ndigits)` on exact rationals: scale by `10^ndigits`,
round half to even, scale back. -/
def pyRoundTo (q : ℚ) (ndigits : ℕ) : ℚ :=
  let m : ℚ := (10 : ℚ) ^ ndigits
  let xq := q * m
  let f : ℤ := Int.floor xq
  let frac : ℚ := xq - (f : ℚ)
  let i : ℤ :=
    if frac < 1/2 then f
    else if 1/2 < frac then f + 1
    else if f % 2 = 0 then f else f + 1
  (i : ℚ) / m

/-- A slot of `obj.material_slots`: an optional material reference (named by
a string) and the slot's display name. -/
structure MaterialSlot where
  material : Option String
  name : String
deriving DecidableEq

/-- One entry of `mesh.polygons`: vertex/loop count, surface area, the
material slot index it references, and the smooth-shading flag. -/
structure Polygon where
  loop_total : ℕ
  area : ℚ
  material_index : ℕ
  use_smooth : Bool
deriving DecidableEq

/-- The read-only subject interface the checkers consume: identity, type
tag, transform, material slots, polygons, and the custom-property bag
(string keys mapping to the truthiness of the stored value). -/
structure Subject where
  name : String
  type : String
  scale : Vec3
  rotation_euler : Vec3
  material_slots : List MaterialSlot
  polygons : List Polygon
  props : List (String × Bool)
deriving DecidableEq

/-- Embeds `obj.get(key, False)`: property-bag lookup with a `False` default. -/
def getProp (props : List (String × Bool)) (k : String) : Bool :=
  ((props.find? (fun p => p.fst == k)).map Prod.snd).getD false

/-! ## Transform checker (`checkers/transform.py`) -/

/-- Embeds `FLOAT_TOLERANCE = 1e-6`. -/
def FLOAT_TOLERANCE : ℚ := 1 / 1000000

/-- Embeds `is_nearly_equal(a, b, tolerance)`: `abs(a - b) < tolerance`. -/
def is_nearly_equal (a b tolerance : ℚ) : Bool :=
  decide (|a - b| < tolerance)

/-- Embeds `is_vector_nearly_equal(vec, target, tolerance)`: `all` components
nearly equal (the source zips the two 3-component sequences). -/
def is_vector_nearly_equal (vec target : Vec3) (tolerance : ℚ) : Bool :=
  is_nearly_equal vec.x target.x tolerance &&
  is_nearly_equal vec.y target.y tolerance &&
  is_nearly_equal vec.z target.z tolerance

/-- The `negative_axes` list built by `_check_negative_scale`: axis labels
whose scale component is strictly negative, in X, Y, Z order. -/
def negativeAxes (scale : Vec3) : List String :=
  (if scale.x < 0 then ["X"] else []) ++
  (if scale.y < 0 then ["Y"] else []) ++
  (if scale.z < 0 then ["Z"] else [])

/-- Embeds `TransformChecker._check_negative_scale`: one ERROR finding when any
axis is negative; `normals_inverted` is set iff the negative-axis count is
odd. -/
def check_negative_scale (obj : Subject) : Option ValidationResult :=
  let scale := obj.scale
  let negative_axes := negativeAxes scale
  if negative_axes.isEmpty then none
  else
    let is_inverted : Bool := decide (negative_axes.length % 2 = 1)
    some
      { checker_name := "Transform"
        severity := Severity.ERROR
        object_name := obj.name
        message := "Negative scale on " ++ String.intercalate ", " negative_axes ++ " axis"
        details :=
          [("scale", Detail.vec scale),
           ("negative_axes", Detail.strList negative_axes),
           ("normals_inverted", Detail.bool is_inverted)]
        fix_hint := some "Apply scale with Ctrl+A > Scale, or use Object > Apply > Scale" }

/-- Embeds `:.3f` formatting of a component, abstracted as round-to-3-then-print. -/
def fmt3 (q : ℚ) : String := toString (pyRoundTo q 3)

/-- Embeds `TransformChecker._check_unapplied_scale`: WARNING when the scale is not
nearly `(1,1,1)`. -/
def check_unapplied_scale (obj : Subject) : Option ValidationResult :=
  let scale := obj.scale
  if ¬ is_vector_nearly_equal scale ⟨1, 1, 1⟩ FLOAT_TOLERANCE then
    some
      { checker_name := "Transform"
        severity := Severity.WARNING
        object_name := obj.name
        message := "Unapplied scale: (" ++ fmt3 scale.x ++ ", " ++ fmt3 scale.y ++ ", " ++ fmt3 scale.z ++ ")"
        details :=
          [("scale", Detail.vec scale),
           ("expected", Detail.vec ⟨1, 1, 1⟩)]
        fix_hint := some "Apply scale with Ctrl+A > Scale" }
  else none

/-- The source's radians-to-degrees factor literal `57.2958`. -/
def RAD_TO_DEG : ℚ := 572958 / 10000

/-- Embeds `TransformChecker._check_unapplied_rotation`: INFO when the Euler
rotation is not nearly `(0,0,0)`; degrees are rounded to 2 places. -/
def check_unapplied_rotation (obj : Subject) : Option ValidationResult :=
  let rot := obj.rotation_euler
  if ¬ is_vector_nearly_equal rot ⟨0, 0, 0⟩ FLOAT_TOLERANCE then
    let rot_degrees : Vec3 :=
      ⟨pyRoundTo (rot.x * RAD_TO_DEG) 2,
       pyRoundTo (rot.y * RAD_TO_DEG) 2,
       pyRoundTo (rot.z * RAD_TO_DEG) 2⟩
    some
      { checker_name := "Transform"
        severity := Severity.INFO
        object_name := obj.name
        message := "Unapplied rotation: (" ++ toString rot_degrees.x ++ "°, " ++ toString rot_degrees.y ++ "°, " ++ toString rot_degrees.z ++ "°)"
        details :=
          [("rotation_euler", Detail.vec rot),
           ("rotation_degrees", Detail.vec rot_degrees),
           ("expected", Detail.vec ⟨0, 0, 0⟩)]
        fix_hint := some "Apply rotation with Ctrl+A > Rotation (if needed)" }
  else none

/-- Embeds `TransformChecker.check` with the class-attribute configuration flags
all at their fixed `True` values: negative scale first, then unapplied
scale, then unapplied rotation. -/
def transformCheck (obj : Subject) : List ValidationResult :=
  (check_negative_scale obj).toList ++
  (check_unapplied_scale obj).toList ++
  (check_unapplied_rotation obj).toList

/-! ## Capped collection loops shared by the geometry and face-orientation checkers -/

def collectCapped {α β : Type} (pred : α → Bool) (mk : ℕ → α → β) (cap : ℕ) :
    List β → ℕ → List α → List β
  | acc, _, [] => acc
  | acc, i, a :: as =>
    if pred a then
      let acc2 := acc ++ [mk i a]
      if cap ≤ acc2.length then acc2 else collectCapped pred mk cap acc2 (i + 1) as
    else collectCapped pred mk cap acc (i + 1) as

/-! ## Geometry checker (`checkers/geometry.py`) -/

/-- The n-gon test of `_check_ngons`: `poly.loop_total > 4`. -/
def isNgon (p : Polygon) : Bool := decide (4 < p.loop_total)

/-- Embeds `total_ngons = sum(1 for p in mesh.polygons if p.loop_total > 4)`. -/
def ngonTotal (polygons : List Polygon) : ℕ :=
  (polygons.filter isNgon).length

/-- The `ngon_indices` list of `_check_ngons` (enumerate indices of n-gons,
capped at `max_reported_faces`). -/
def ngonIndexList (cap : ℕ) (polygons : List Polygon) : List ℕ :=
  collectCapped isNgon (fun i _ => i) cap [] 0 polygons

/-- The `ngon_vertex_counts` list built alongside `ngon_indices`. -/
def ngonVertexCounts (cap : ℕ) (polygons : List Polygon) : List ℕ :=
  collectCapped isNgon (fun _ p => p.loop_total) cap [] 0 polygons

/-- Embeds `GeometryChecker._check_ngons` with configurable cap `max_reported`. -/
def checkNgons (objName : String) (max_reported : ℕ) (polygons : List Polygon) :
    Option ValidationResult :=
  let ngon_indices := ngonIndexList max_reported polygons
  if ngon_indices.isEmpty then none
  else
    let total_ngons := ngonTotal polygons
    let message :=
      if total_ngons ≤ max_reported then
        toString total_ngons ++ " N-gon(s) found"
      else
        toString total_ngons ++ " N-gon(s) found (showing first " ++ toString max_reported ++ ")"
    some
      { checker_name := "Geometry"
        severity := Severity.WARNING
        object_name := objName
        message := message
        details :=
          [("total_ngons", Detail.nat total_ngons),
           ("face_indices", Detail.natList ngon_indices),
           ("vertex_counts", Detail.natList (ngonVertexCounts max_reported polygons))]
        fix_hint := some "Select N-gons: Edit Mode > Select > All by Trait > Faces by Sides" }

/-- The small-face test of `_check_small_faces`: `poly.area < threshold`
(class-attribute default `small_face_threshold = 0.0001`). -/
def isSmallFace (threshold : ℚ) (p : Polygon) : Bool := decide (p.area < threshold)

/-- Embeds `total_small = sum(1 for p in mesh.polygons if p.area < threshold)`. -/
def smallFaceTotal (threshold : ℚ) (polygons : List Polygon) : ℕ :=
  (polygons.filter (isSmallFace threshold)).length

/-- The `small_face_indices` list of `_check_small_faces`. -/
def smallFaceIndexList (threshold : ℚ) (cap : ℕ) (polygons : List Polygon) : List ℕ :=
  collectCapped (isSmallFace threshold) (fun i _ => i) cap [] 0 polygons

/-- The `small_face_areas` list built alongside the indices. -/
def smallFaceAreas (threshold : ℚ) (cap : ℕ) (polygons : List Polygon) : List ℚ :=
  collectCapped (isSmallFace threshold) (fun _ p => p.area) cap [] 0 polygons

/-- Embeds `GeometryChecker._check_small_faces` with configurable threshold and cap. -/
def checkSmallFaces (objName : String) (threshold : ℚ) (max_reported : ℕ)
    (polygons : List Polygon) : Option ValidationResult :=
  let small_face_indices := smallFaceIndexList threshold max_reported polygons
  if small_face_indices.isEmpty then none
  else
    let total_small := smallFaceTotal threshold polygons
    some
      { checker_name := "Geometry"
        severity := Severity.INFO
        object_name := objName
        message := toString total_small ++ " extremely small face(s) found"
        details :=
          [("total_small_faces", Detail.nat total_small),
           ("face_indices", Detail.natList small_face_indices),
           ("face_areas", Detail.ratList (smallFaceAreas threshold max_reported polygons)),
           ("threshold", Detail.rat threshold)]
        fix_hint := some "Consider merging or dissolving tiny faces" }

/-! ## Face-orientation checker (`checkers/face_orientation.py`) -/

/-- A BMesh face as the checker reads it: its stable index, its vertex
coordinates, and its (unit) normal. -/
structure BMFace where
  index : ℕ
  verts : List Vec3
  normal : Vec3
deriving DecidableEq

/-- The BMesh data `_check_inverted_faces` iterates: all vertex coordinates
and all faces. -/
structure BMeshData where
  verts : List Vec3
  faces : List BMFace
deriving DecidableEq

/-- Embeds `sum((v.co for v in verts), Vector())`. -/
def vsum (l : List Vec3) : Vec3 := l.foldl Vec3.add Vec3.zero

/-- Mean position of a vertex list (`sum / len`; the callers guard against
an empty list, under which `ℚ` division by zero yields the zero vector just
as `mathutils` returns a zero center for no vertices). -/
def meanVec (l : List Vec3) : Vec3 := Vec3.smul (1 / (l.length : ℚ)) (vsum l)

/-- Embeds `face.calc_center_median()`: the mean of the face's vertex positions. -/
def faceCenter (f : BMFace) : Vec3 := meanVec f.verts

/-- The per-face flag test of `_check_inverted_faces`:
`face.normal.dot(to_center.normalized()) > 0.7` with
`to_center = center - face.calc_center_median()`.
Expressed over `ℚ` without square roots: for `d = normal ⬝ t`,
`d / |t| > 7/10  ↔  0 < d ∧ 49 * (t ⬝ t) < 100 * d^2` when `t ≠ 0`, and the
zero vector normalizes to the zero vector (dot `0`, not flagged) exactly as
`mathutils` does. -/
def isPotentiallyInverted (center : Vec3) (f : BMFace) : Bool :=
  let t := Vec3.sub center (faceCenter f)
  let d := Vec3.dot f.normal t
  decide (0 < d) && decide (49 * Vec3.dot t t < 100 * (d * d))

/-- The second pass of `_check_inverted_faces`: the exact (uncapped) count
of flagged faces. -/
def countFlagged (center : Vec3) (faces : List BMFace) : ℕ :=
  (faces.filter (isPotentiallyInverted center)).length

/-- The exact flagged-face count of a mesh, with the mesh centre the mean
of all vertices (the quantity `total_inverted` of the source). -/
def flaggedTotal (bm : BMeshData) : ℕ :=
  countFlagged (meanVec bm.verts) bm.faces

/-- The capped `potentially_inverted` index list of the first pass. -/
def flaggedIndexList (cap : ℕ) (bm : BMeshData) : List ℕ :=
  collectCapped (isPotentiallyInverted (meanVec bm.verts)) (fun _ f => f.index) cap [] 0 bm.faces

/-- Embeds `:.1%` formatting, abstracted as round-to-1-decimal-percent-then-print. -/
def fmtPct1 (q : ℚ) : String := toString (pyRoundTo (q * 100) 1) ++ "%"

/-- Embeds `FaceOrientationChecker._check_inverted_faces` with configurable cap
`max_reported` (class-attribute default `max_reported_faces = 20`). -/
def checkInvertedFaces (objName : String) (max_reported : ℕ) (bm : BMeshData) :
    Option ValidationResult :=
  if bm.verts.isEmpty then none
  else
    let center := meanVec bm.verts
    let potentially_inverted := flaggedIndexList max_reported bm
    if potentially_inverted.isEmpty then none
    else
      let total_inverted := countFlagged center bm.faces
      let total_faces := bm.faces.length
      let ratioInv : ℚ := if 0 < total_faces then (total_inverted : ℚ) / (total_faces : ℚ) else 0
      let details :=
        [("potentially_inverted_count", Detail.nat total_inverted),
         ("total_faces", Detail.nat total_faces),
         ("face_indices", Detail.natList potentially_inverted),
         ("inverted_ratio", Detail.rat (pyRoundTo ratioInv 3))]
      if ratioInv < 5/100 ∧ total_inverted < 5 then
        some
          { checker_name := "Face Orientation"
            severity := Severity.INFO
            object_name := objName
            message := toString total_inverted ++ " face(s) may have inverted normals"
            details := details
            fix_hint := some "Check normals: Viewport Overlays > Face Orientation" }
      else
        some
          { checker_name := "Face Orientation"
            severity := Severity.WARNING
            object_name := objName
            message := toString total_inverted ++ " face(s) may have inverted normals (" ++ fmtPct1 ratioInv ++ ")"
            details := details
            fix_hint := some "Fix normals: Edit Mode > Mesh > Normals > Recalculate Outside" }

/-! ## Material checker (`checkers/materials.py`) -/

/-- Embeds `MaterialChecker._find_empty_slots` from running index `i`: enumerate
indices of slots with no material. -/
def findEmptySlots : ℕ → List MaterialSlot → List ℕ
  | _, [] => []
  | i, s :: ss =>
    if s.material = none then i :: findEmptySlots (i + 1) ss
    else findEmptySlots (i + 1) ss

/-- The set of material indices referenced by the polygons (`used_indices`),
as a list with membership as the set query. -/
def usedMaterialIndices (polygons : List Polygon) : List ℕ :=
  polygons.map Polygon.material_index

/-- The inner filter of `_find_unused_slots` from running index `i`: slots
holding a material that no polygon references. -/
def unusedSlotsFrom (used : List ℕ) : ℕ → List MaterialSlot → List ℕ
  | _, [] => []
  | i, s :: ss =>
    if s.material.isSome ∧ ¬ i ∈ used then i :: unusedSlotsFrom used (i + 1) ss
    else unusedSlotsFrom used (i + 1) ss

/-- Embeds `MaterialChecker._find_unused_slots`: empty when the mesh has no
polygons, else the slots holding an unreferenced material. -/
def findUnusedSlots (slots : List MaterialSlot) (polygons : List Polygon) : List ℕ :=
  if polygons.isEmpty then []
  else unusedSlotsFrom (usedMaterialIndices polygons) 0 slots

/-- Embeds `obj.material_slots[i].name or f"Slot {i}"` (the indices come from an
enumeration of the slots, so the out-of-range default is unreachable). -/
def slotDisplayName (slots : List MaterialSlot) (i : ℕ) : String :=
  match slots.get? i with
  | some s => if s.name = "" then "Slot " ++ toString i else s.name
  | none => "Slot " ++ toString i

/-- Embeds `MaterialChecker.check`: the findings in emission order — no slots at
all (early return), empty slots, all slots empty, unused slots. -/
def materialCheck (obj : Subject) : List ValidationResult :=
  if obj.type ≠ "MESH" then []
  else if obj.material_slots.isEmpty then
    [{ checker_name := "Material"
       severity := Severity.ERROR
       object_name := obj.name
       message := "No material slots"
       details := [("slot_count", Detail.nat 0)]
       fix_hint := some "Add a material in the Material Properties panel" }]
  else
    let empty_slots := findEmptySlots 0 obj.material_slots
    let emptyFindings : List ValidationResult :=
      if empty_slots.isEmpty then []
      else
        [{ checker_name := "Material"
           severity := Severity.WARNING
           object_name := obj.name
           message := "Empty material slot(s): " ++ String.intercalate ", " (empty_slots.map toString)
           details :=
             [("empty_slot_indices", Detail.natList empty_slots),
              ("total_slots", Detail.nat obj.material_slots.length)]
           fix_hint := some "Assign materials to empty slots or remove unused slots" }]
    let all_empty := obj.material_slots.all (fun s => s.material == none)
    let allEmptyFindings : List ValidationResult :=
      if all_empty ∧ 0 < obj.material_slots.length then
        [{ checker_name := "Material"
           severity := Severity.ERROR
           object_name := obj.name
           message := "All material slots are empty"
           details := [("slot_count", Detail.nat obj.material_slots.length)]
           fix_hint := some "Assign at least one material" }]
      else []
    let unused_slots := findUnusedSlots obj.material_slots obj.polygons
    let unusedFindings : List ValidationResult :=
      if unused_slots.isEmpty then []
      else
        let slot_names := unused_slots.map (slotDisplayName obj.material_slots)
        [{ checker_name := "Material"
           severity := Severity.INFO
           object_name := obj.name
           message := "Unused material slot(s): " ++ String.intercalate ", " slot_names
           details :=
             [("unused_slot_indices", Detail.natList unused_slots),
              ("unused_slot_names", Detail.strList slot_names)]
           fix_hint := some "Remove unused material slots or assign them to faces" }]
    emptyFindings ++ allEmptyFindings ++ unusedFindings

/-! ## Checker contract and orchestrator (`core/base_checker.py`, `operators/validate.py`) -/

structure RunChecker where
  name : String
  id : String
  supported_types : List String
  supports_exclusion : Bool
  check : Subject → Except String (List ValidationResult)

/-- Embeds `BaseChecker.is_supported`: `obj.type in self.supported_types`. -/
def RunChecker.is_supported (c : RunChecker) (obj : Subject) : Bool :=
  c.supported_types.contains obj.type

/-- The custom-property key `f"unity_validator_exclude_{checker_id}"` read
by `BaseChecker.is_excluded`. -/
def exclusionKey (checkerId : String) : String :=
  "unity_validator_exclude_" ++ checkerId

/-- Embeds `BaseChecker.is_excluded`: `False` when the checker does not support
exclusion, else the truthiness of `obj.get(prop_name, False)`. -/
def RunChecker.is_excluded (c : RunChecker) (obj : Subject) : Bool :=
  if ¬ c.supports_exclusion then false
  else getProp obj.props (exclusionKey c.id)

/-- One message the operator surfaces via `self.report(...)`: the level set
`{WARNING}` / `{ERROR}` / `{INFO}` and the message text. -/
structure Report where
  level : String
  message : String
deriving DecidableEq

/-- The fault warning text
`f"Checker {checker.name} failed on {obj.name}: {e}"` (the source wraps the
two names in single quotes; the quotes are dropped here). -/
def faultMessage (checkerName objName cause : String) : String :=
  "Checker " ++ checkerName ++ " failed on " ++ objName ++ ": " ++ cause

/-- The contribution of one `(subject, checker)` pair taken in isolation:
skipped pairs and faulting pairs contribute no results; a faulting pair
contributes one fault report. -/
def runPair (c : RunChecker) (obj : Subject) : List ValidationResult × List Report :=
  if ¬ c.is_supported obj then ([], [])
  else if c.is_excluded obj then ([], [])
  else
    match c.check obj with
    | .ok rs => (rs, [])
    | .error e => ([], [⟨"WARNING", faultMessage c.name obj.name e⟩])

/-- The body of the orchestrator's inner loop: skip unsupported and
excluded checkers, extend `all_results` on success, report a warning on an
exception. -/
def orchestratorStep (obj : Subject) (acc : List ValidationResult × List Report)
    (c : RunChecker) : List ValidationResult × List Report :=
  if ¬ c.is_supported obj then acc
  else if c.is_excluded obj then acc
  else
    match c.check obj with
    | .ok rs => (acc.1 ++ rs, acc.2)
    | .error e => (acc.1, acc.2 ++ [⟨"WARNING", faultMessage c.name obj.name e⟩])

/-- The orchestrator's double loop over subjects × checkers, accumulating
`all_results` and the reported fault warnings in iteration order. -/
def runAll (objects : List Subject) (checkers : List RunChecker) :
    List ValidationResult × List Report :=
  objects.foldl (fun acc obj => checkers.foldl (orchestratorStep obj) acc) ([], [])

/-- Embeds `'CANCELLED'` / `'FINISHED'` operator return statuses. -/
inductive RunStatus
  | CANCELLED
  | FINISHED
deriving DecidableEq

/-- The outcome of one `execute`: the return status, the aggregated result
list handed to `_store_results`, and every `self.report(...)` call in order. -/
structure RunOutcome where
  status : RunStatus
  results : List ValidationResult
  reports : List Report

/-- The end-of-run summary report: counts by severity over the full result
list, reported at the highest severity present. -/
def summaryReport (results : List ValidationResult) : Report :=
  let error_count := (results.filter (fun r => decide (r.severity = Severity.ERROR))).length
  let warning_count := (results.filter (fun r => decide (r.severity = Severity.WARNING))).length
  let info_count := (results.filter (fun r => decide (r.severity = Severity.INFO))).length
  if 0 < error_count then
    ⟨"ERROR", "Validation complete: " ++ toString error_count ++ " errors, " ++
      toString warning_count ++ " warnings, " ++ toString info_count ++ " info"⟩
  else if 0 < warning_count then
    ⟨"WARNING", "Validation complete: " ++ toString warning_count ++ " warnings, " ++
      toString info_count ++ " info"⟩
  else if 0 < info_count then
    ⟨"INFO", "Validation complete: " ++ toString info_count ++ " info items"⟩
  else
    ⟨"INFO", "Validation complete: No issues found!"⟩

/-- Embeds `UNITY_VALIDATOR_OT_validate.execute` with the subject set and the
registry contents as inputs (the source pulls them from the host and the
registry singleton): cancelled on an empty subject set or empty checker
set, else the double loop followed by the summary report; `_store_results`
is host-UI glue and not modelled. -/
def validateExecute (objects : List Subject) (checkers : List RunChecker) : RunOutcome :=
  if objects.isEmpty then
    ⟨RunStatus.CANCELLED, [], [⟨"WARNING", "No mesh objects to validate"⟩]⟩
  else if checkers.isEmpty then
    ⟨RunStatus.CANCELLED, [], [⟨"ERROR", "No checkers registered"⟩]⟩
  else
    let (all_results, warnings) := runAll objects checkers
    ⟨RunStatus.FINISHED, all_results, warnings ++ [summaryReport all_results]⟩

/-! ## Checker registry (`core/registry.py`) -/

def dictSet {α : Type} (m : List (String × α)) (k : String) (v : α) :
    List (String × α) :=
  if m.any (fun p => p.fst == k) then
    m.map (fun p => if p.fst == k then (k, v) else p)
  else m ++ [(k, v)]

/-- Embeds `CheckerRegistry.register`: store the instance under its id, overwriting
(with a logged warning, not modelled) any prior entry with the same id. -/
def registryRegister (reg : List (String × RunChecker)) (c : RunChecker) :
    List (String × RunChecker) :=
  dictSet reg c.id c

/-- Embeds `CheckerRegistry.get_all`: `list(cls._checkers.values())`. -/
def registryGetAll (reg : List (String × RunChecker)) : List RunChecker :=
  reg.map Prod.snd

/-! ## Concrete fixtures used by witnesses and counterexamples -/

/-- C4 counterexample input: a scale whose X component deviates from 1 by
exactly the tolerance `1e-6`. -/
def sBoundary : Subject :=
  ⟨"Cube", "MESH", ⟨1 + 1/1000000, 1, 1⟩, ⟨0, 0, 0⟩, [], [], []⟩

/-- A transform-like checker with `supports_exclusion = True` and the
default-derived id `"transform"`. -/
def cTransformW : RunChecker :=
  ⟨"Transform", "transform", ["MESH"], true, fun _ => .ok []⟩

/-- A subject whose property bag sets `exclude_transform` (the key named by
the claim) truthy. -/
def sExclW : Subject :=
  ⟨"Cube", "MESH", ⟨1, 1, 1⟩, ⟨0, 0, 0⟩, [], [], [("exclude_transform", true)]⟩

/-- C10 witness: three concrete checkers, the first and third sharing the
id `"x"`. -/
def regAW : RunChecker := ⟨"A", "x", ["MESH"], true, fun _ => .ok []⟩

def regBW : RunChecker := ⟨"B", "y", ["MESH"], true, fun _ => .ok []⟩

def regA2W : RunChecker := ⟨"A2", "x", ["MESH"], false, fun _ => .ok []⟩

/-- C1 witness inputs: one subject; a faulting checker and a healthy
checker that emits one finding. -/
def sRunW : Subject := ⟨"Cube", "MESH", ⟨1, 1, 1⟩, ⟨0, 0, 0⟩, [], [], []⟩

def cBadW : RunChecker :=
  ⟨"Broken", "broken", ["MESH"], true, fun _ => .error "boom"⟩

def cGoodW : RunChecker :=
  ⟨"Good", "good", ["MESH"], true,
   fun obj => .ok [⟨"Good", Severity.INFO, obj.name, "ok finding", [], none⟩]⟩

/-- C8 counterexample input: exactly one slot holding a material and zero
polygons, so no polygon references the slot. -/
def sNoPoly : Subject :=
  ⟨"NoPoly", "MESH", ⟨1, 1, 1⟩, ⟨0, 0, 0⟩, [⟨some "Mat", "Mat"⟩], [], []⟩

/-- C8 witness input: one material-holding slot and one polygon whose
material index points elsewhere. -/
def sUnusedW : Subject :=
  ⟨"M", "MESH", ⟨1, 1, 1⟩, ⟨0, 0, 0⟩, [⟨some "Mat", "Mat"⟩], [⟨4, 1, 1, false⟩], []⟩

/-- C9 witness input: two empty slots and one polygon. -/
def sAllEmptyW : Subject :=
  ⟨"M", "MESH", ⟨1, 1, 1⟩, ⟨0, 0, 0⟩, [⟨none, ""⟩, ⟨none, ""⟩], [⟨4, 1, 0, false⟩], []⟩

/-- C5 counterexample input: one pentagon (an n-gon). -/
def polysPenta : List Polygon := [⟨5, 1, 0, false⟩]

/-- C5 witness input: one zero-area quad (a small face). -/
def polysSmallW : List Polygon := [⟨4, 0, 0, false⟩]

/-- Witness mesh: one vertex at the origin (so the mesh centre is the
origin) and one face centred at `(2,0,0)` whose normal `(-1,0,0)` points
back toward the centre — flagged by the orientation heuristic. -/
def bmFlagW : BMeshData := ⟨[⟨0, 0, 0⟩], [⟨0, [⟨2, 0, 0⟩], ⟨-1, 0, 0⟩⟩]⟩

/-! ## Helper lemmas for the transform checker -/

lemma is_vector_nearly_equal_iff (v t : Vec3) (tol : ℚ) :
    is_vector_nearly_equal v t tol = true ↔
      (|v.x - t.x| < tol ∧ |v.y - t.y| < tol ∧ |v.z - t.z| < tol) := by
  simp [is_vector_nearly_equal, is_nearly_equal, Bool.and_eq_true, and_assoc]

lemma check_unapplied_scale_eq_none_iff (obj : Subject) :
    check_unapplied_scale obj = none ↔
      is_vector_nearly_equal obj.scale ⟨1, 1, 1⟩ FLOAT_TOLERANCE = true := by
  simp only [check_unapplied_scale]
  split
  next h => simp [h]
  next h => simpa using not_not.mp h

lemma check_unapplied_rotation_eq_none_iff (obj : Subject) :
    check_unapplied_rotation obj = none ↔
      is_vector_nearly_equal obj.rotation_euler ⟨0, 0, 0⟩ FLOAT_TOLERANCE = true := by
  simp only [check_unapplied_rotation]
  split
  next h => simp [h]
  next h => simpa using not_not.mp h

/-! ## Claim C4 (corrected) -/

/-- C4, counterexample: every component of `sBoundary.scale` differs from 1
by at most `ε = 1e-6`, yet the unapplied-scale finding IS emitted — the
claim says a deviation of exactly `ε` does not trigger the finding, but the
source compares with strict `<`, so it does. -/
theorem exact_epsilon_triggers_finding :
    |sBoundary.scale.x - 1| ≤ FLOAT_TOLERANCE ∧
    |sBoundary.scale.y - 1| ≤ FLOAT_TOLERANCE ∧
    |sBoundary.scale.z - 1| ≤ FLOAT_TOLERANCE ∧
    (check_unapplied_scale sBoundary).isSome = true := by
  refine ⟨?_, ?_, ?_, ?_⟩
  · norm_num [sBoundary, FLOAT_TOLERANCE, abs_le]
  · norm_num [sBoundary, FLOAT_TOLERANCE]
  · norm_num [sBoundary, FLOAT_TOLERANCE]
  · simp only [check_unapplied_scale]
    split
    next => rfl
    next h =>
      rw [not_not] at h
      rw [is_vector_nearly_equal_iff] at h
      norm_num [sBoundary, FLOAT_TOLERANCE, abs_lt] at h

/-- C4 as amended: the unapplied-scale finding is suppressed exactly when
every scale component is strictly within `ε = 1e-6` of 1, and the
unapplied-rotation finding exactly when every rotation component is
strictly within `ε` of 0; a component deviating by `ε` or more always
triggers the corresponding finding (so exactly `ε` does trigger it). -/
theorem unapplied_tolerance_boundary (obj : Subject) :
    (check_unapplied_scale obj = none ↔
      (|obj.scale.x - 1| < FLOAT_TOLERANCE ∧ |obj.scale.y - 1| < FLOAT_TOLERANCE ∧
       |obj.scale.z - 1| < FLOAT_TOLERANCE)) ∧
    (check_unapplied_rotation obj = none ↔
      (|obj.rotation_euler.x - 0| < FLOAT_TOLERANCE ∧ |obj.rotation_euler.y - 0| < FLOAT_TOLERANCE ∧
       |obj.rotation_euler.z - 0| < FLOAT_TOLERANCE)) := by
  constructor
  · rw [check_unapplied_scale_eq_none_iff, is_vector_nearly_equal_iff]
  · rw [check_unapplied_rotation_eq_none_iff, is_vector_nearly_equal_iff]

/-- C4 witness: the amended theorem instantiated at a concrete subject with
scale `(1, 1, 1 + 2e-6)`: the X and Y components are within tolerance and
the Z deviation of `2e-6 > ε` makes the finding fire. -/
theorem unapplied_tolerance_boundary_witness :
    (check_unapplied_scale ⟨"C", "MESH", ⟨1, 1, 1 + 2/1000000⟩, ⟨0, 0, 0⟩, [], [], []⟩ = none ↔
      (|(1 : ℚ) - 1| < FLOAT_TOLERANCE ∧ |(1 : ℚ) - 1| < FLOAT_TOLERANCE ∧
       |(1 + 2/1000000 : ℚ) - 1| < FLOAT_TOLERANCE)) ∧
    (check_unapplied_rotation ⟨"C", "MESH", ⟨1, 1, 1 + 2/1000000⟩, ⟨0, 0, 0⟩, [], [], []⟩ = none ↔
      (|(0 : ℚ) - 0| < FLOAT_TOLERANCE ∧ |(0 : ℚ) - 0| < FLOAT_TOLERANCE ∧
       |(0 : ℚ) - 0| < FLOAT_TOLERANCE)) :=
  unapplied_tolerance_boundary ⟨"C", "MESH", ⟨1, 1, 1 + 2/1000000⟩, ⟨0, 0, 0⟩, [], [], []⟩

/-! ## Claim C3 (confirmed) -/

lemma negativeAxes_ne_nil (v : Vec3) (h : v.x < 0 ∨ v.y < 0 ∨ v.z < 0) :
    (negativeAxes v).isEmpty = false := by
  unfold negativeAxes
  rcases h with h | h | h
  · simp [h]
  · by_cases hx : v.x < 0 <;> simp [h, hx]
  · by_cases hx : v.x < 0 <;> by_cases hy : v.y < 0 <;> simp [h, hx, hy]

/-- C3: whenever some scale component is negative, the transform checker
emits exactly one negative-scale finding, always at ERROR severity
regardless of how many axes are negative, and its `normals_inverted`
detail is `true` exactly when the number of negative axes is odd. -/
theorem negative_scale_parity (obj : Subject)
    (h : obj.scale.x < 0 ∨ obj.scale.y < 0 ∨ obj.scale.z < 0) :
    ((check_negative_scale obj).map ValidationResult.severity) = some Severity.ERROR ∧
    ((check_negative_scale obj).bind (fun r => findDetail r "normals_inverted")) =
      some (Detail.bool (decide ((negativeAxes obj.scale).length % 2 = 1))) := by
  have hne := negativeAxes_ne_nil obj.scale h
  simp [check_negative_scale, hne, findDetail, List.find?]

/-- C3 witness: applied at scale `(-1, 1, 1)` (odd count, inverted) and at
scale `(-1, -1, 1)` (even count, not inverted); both still emit the ERROR
finding. -/
theorem negative_scale_parity_witness :
    (((check_negative_scale ⟨"A", "MESH", ⟨-1, 1, 1⟩, ⟨0, 0, 0⟩, [], [], []⟩).map ValidationResult.severity)
        = some Severity.ERROR ∧
      ((check_negative_scale ⟨"A", "MESH", ⟨-1, 1, 1⟩, ⟨0, 0, 0⟩, [], [], []⟩).bind
          (fun r => findDetail r "normals_inverted"))
        = some (Detail.bool (decide ((negativeAxes ⟨-1, 1, 1⟩).length % 2 = 1)))) ∧
    (((check_negative_scale ⟨"B", "MESH", ⟨-1, -1, 1⟩, ⟨0, 0, 0⟩, [], [], []⟩).map ValidationResult.severity)
        = some Severity.ERROR ∧
      ((check_negative_scale ⟨"B", "MESH", ⟨-1, -1, 1⟩, ⟨0, 0, 0⟩, [], [], []⟩).bind
          (fun r => findDetail r "normals_inverted"))
        = some (Detail.bool (decide ((negativeAxes ⟨-1, -1, 1⟩).length % 2 = 1)))) :=
  ⟨negative_scale_parity ⟨"A", "MESH", ⟨-1, 1, 1⟩, ⟨0, 0, 0⟩, [], [], []⟩ (Or.inl (by norm_num)),
   negative_scale_parity ⟨"B", "MESH", ⟨-1, -1, 1⟩, ⟨0, 0, 0⟩, [], [], []⟩ (Or.inl (by norm_num))⟩

/-! ## Claim C6 (corrected) -/

/-- C6 counterexample: the checker supports exclusion and the subject's
property bag holds a truthy value under `exclude_<checker_id>`, yet
`is_excluded` returns `false` — the source reads the key
`unity_validator_exclude_<checker_id>` instead. -/
theorem exclude_key_counterexample :
    cTransformW.supports_exclusion = true ∧
    getProp sExclW.props ("exclude_" ++ cTransformW.id) = true ∧
    RunChecker.is_excluded cTransformW sExclW = false :=
  ⟨rfl, rfl, rfl⟩

/-- C6 as amended: `is_excluded(subject)` returns true iff the checker's
`supports_exclusion` is true and the subject's property bag holds a truthy
value under the key `unity_validator_exclude_<checker_id>`; a checker with
`supports_exclusion` false is never excluded. -/
theorem is_excluded_spec (c : RunChecker) (obj : Subject) :
    c.is_excluded obj =
      (c.supports_exclusion && getProp obj.props (exclusionKey c.id)) := by
  unfold RunChecker.is_excluded
  by_cases h : c.supports_exclusion <;> simp [h]

/-- C6 witness: the amended equation instantiated at a concrete checker and
subject whose bag holds the prefixed key. -/
theorem is_excluded_spec_witness :
    RunChecker.is_excluded cTransformW
        ⟨"S", "MESH", ⟨1, 1, 1⟩, ⟨0, 0, 0⟩, [], [], [("unity_validator_exclude_transform", true)]⟩
      = (cTransformW.supports_exclusion &&
          getProp [("unity_validator_exclude_transform", true)] (exclusionKey cTransformW.id)) :=
  is_excluded_spec cTransformW
    ⟨"S", "MESH", ⟨1, 1, 1⟩, ⟨0, 0, 0⟩, [], [], [("unity_validator_exclude_transform", true)]⟩

/-! ## Claim C7 (corrected) -/

/-- C7 counterexample: constructing a `ValidationResult` with an empty
subject id (`object_name`) succeeds — `__post_init__` validates only
`checker_name` and `message`. -/
theorem empty_subject_id_accepted :
    mkValidationResult "Transform" Severity.INFO "" "Some message" [] none
      = .ok ⟨"Transform", Severity.INFO, "", "Some message", [], none⟩ :=
  rfl

/-- C7 as amended: construction fails exactly when `checker_name` or
`message` is empty, so every successfully constructed result has those two
fields non-empty; an empty `object_name` (subject id) is accepted. -/
theorem mkValidationResult_ok_iff (cn : String) (sev : Severity)
    (objName msg : String) (d : List (String × Detail)) (fh : Option String) :
    (mkValidationResult cn sev objName msg d fh).isOk = true ↔ (cn ≠ "" ∧ msg ≠ "") := by
  unfold mkValidationResult
  by_cases h1 : cn = "" <;> by_cases h2 : msg = "" <;>
    simp [h1, h2, Except.isOk, Except.toBool]

/-- C7 witness: the amended equivalence instantiated at a fully concrete
construction. -/
theorem mkValidationResult_ok_iff_witness :
    (mkValidationResult "Transform" Severity.INFO "Cube" "msg" [] none).isOk = true ↔
      (("Transform" : String) ≠ "" ∧ ("msg" : String) ≠ "") :=
  mkValidationResult_ok_iff "Transform" Severity.INFO "Cube" "msg" [] none

/-! ## Claim C10 (confirmed) -/

/-- C10: re-registering an id overwrites the stored instance but keeps the
id's original position in enumeration order: after registering `a`, `b`,
then `a2` with `a2.id = a.id ≠ b.id`, `get_all()` returns `a2` before `b`. -/
theorem register_overwrite_keeps_position (a b a2 : RunChecker)
    (h1 : a2.id = a.id) (h2 : a.id ≠ b.id) :
    registryGetAll (registryRegister (registryRegister (registryRegister [] a) b) a2)
      = [a2, b] := by
  have hba : (a.id == b.id) = false := by simp [h2]
  have hab : (a.id == a2.id) = true := by simp [h1]
  have hbb : (b.id == a2.id) = false := by
    simp only [beq_eq_false_iff_ne, ne_eq, h1]
    exact fun hh => h2 hh.symm
  have hba2 : ¬ (b.id = a.id) := fun hh => h2 hh.symm
  simp [registryRegister, dictSet, registryGetAll, hba, hab, hbb, h1, hba2]

theorem register_overwrite_keeps_position_witness :
    registryGetAll (registryRegister (registryRegister (registryRegister [] regAW) regBW) regA2W)
      = [regA2W, regBW] :=
  register_overwrite_keeps_position regAW regBW regA2W rfl (by decide)

/-! ## Claim C1 (confirmed) -/

lemma orchestratorStep_eq (obj : Subject) (acc : List ValidationResult × List Report)
    (c : RunChecker) :
    orchestratorStep obj acc c = (acc.1 ++ (runPair c obj).1, acc.2 ++ (runPair c obj).2) := by
  unfold orchestratorStep runPair
  by_cases h1 : c.is_supported obj
  · by_cases h2 : c.is_excluded obj
    · simp [h1, h2]
    · cases hc : c.check obj <;> simp [h1, h2, hc]
  · simp [h1]

lemma foldl_orchestratorStep (obj : Subject) (checkers : List RunChecker)
    (acc : List ValidationResult × List Report) :
    checkers.foldl (orchestratorStep obj) acc
      = (acc.1 ++ checkers.flatMap (fun c => (runPair c obj).1),
         acc.2 ++ checkers.flatMap (fun c => (runPair c obj).2)) := by
  induction checkers generalizing acc with
  | nil => simp
  | cons c cs ih =>
    rw [List.foldl_cons, orchestratorStep_eq, ih]
    simp [List.append_assoc]

lemma runAll_eq (objects : List Subject) (checkers : List RunChecker) :
    runAll objects checkers
      = (objects.flatMap (fun s => checkers.flatMap (fun c => (runPair c s).1)),
         objects.flatMap (fun s => checkers.flatMap (fun c => (runPair c s).2))) := by
  unfold runAll
  suffices h : ∀ acc : List ValidationResult × List Report,
      objects.foldl (fun acc obj => checkers.foldl (orchestratorStep obj) acc) acc
        = (acc.1 ++ objects.flatMap (fun s => checkers.flatMap (fun c => (runPair c s).1)),
           acc.2 ++ objects.flatMap (fun s => checkers.flatMap (fun c => (runPair c s).2))) by
    simpa using h ([], [])
  induction objects with
  | nil => intro acc; simp
  | cons s ss ih =>
    intro acc
    rw [List.foldl_cons, foldl_orchestratorStep, ih]
    simp [List.append_assoc]

lemma runPair_of_error (c : RunChecker) (s : Subject) (e : String)
    (hsupp : c.is_supported s = true) (hexcl : c.is_excluded s = false)
    (herr : c.check s = .error e) :
    runPair c s = ([], [⟨"WARNING", faultMessage c.name s.name e⟩]) := by
  unfold runPair
  simp [hsupp, hexcl, herr]

/-- C1: a checker whose `check()` raises on one `(subject, checker)` pair is
caught at the orchestrator boundary: the run still finishes, a WARNING
report naming that checker and subject is recorded, the aggregate result
list is exactly the concatenation of the independent per-pair
contributions (so no other pair's results change), and the faulting pair
contributes zero results. -/
theorem orchestrator_fault_isolation
    (objects : List Subject) (checkers : List RunChecker)
    (c0 : RunChecker) (s0 : Subject) (e : String)
    (hc : c0 ∈ checkers) (hs : s0 ∈ objects)
    (hsupp : c0.is_supported s0 = true)
    (hexcl : c0.is_excluded s0 = false)
    (herr : c0.check s0 = .error e) :
    (validateExecute objects checkers).status = RunStatus.FINISHED ∧
    Report.mk "WARNING" (faultMessage c0.name s0.name e) ∈ (validateExecute objects checkers).reports ∧
    (validateExecute objects checkers).results
      = objects.flatMap (fun s => checkers.flatMap (fun c => (runPair c s).1)) ∧
    (runPair c0 s0).1 = [] := by
  have hobj : objects.isEmpty = false := by
    cases objects with
    | nil => exact absurd hs (List.not_mem_nil s0)
    | cons a l => rfl
  have hchk : checkers.isEmpty = false := by
    cases checkers with
    | nil => exact absurd hc (List.not_mem_nil c0)
    | cons a l => rfl
  have hpair := runPair_of_error c0 s0 e hsupp hexcl herr
  have hExec : validateExecute objects checkers
      = ⟨RunStatus.FINISHED,
         objects.flatMap (fun s => checkers.flatMap (fun c => (runPair c s).1)),
         (objects.flatMap (fun s => checkers.flatMap (fun c => (runPair c s).2))) ++
           [summaryReport (objects.flatMap (fun s => checkers.flatMap (fun c => (runPair c s).1)))]⟩ := by
    unfold validateExecute
    rw [runAll_eq]
    simp [hobj, hchk]
  refine ⟨by rw [hExec], ?_, by rw [hExec], by rw [hpair]⟩
  rw [hExec]
  apply List.mem_append_left
  rw [List.mem_flatMap]
  refine ⟨s0, hs, ?_⟩
  rw [List.mem_flatMap]
  exact ⟨c0, hc, by rw [hpair]; exact List.mem_singleton.mpr rfl⟩

/-- C1 witness: the isolation theorem applied to a run where `cBadW` raises
on `sRunW` while `cGoodW` still produces its finding. -/
theorem orchestrator_fault_isolation_witness :
    (validateExecute [sRunW] [cBadW, cGoodW]).status = RunStatus.FINISHED ∧
    Report.mk "WARNING" (faultMessage cBadW.name sRunW.name "boom")
      ∈ (validateExecute [sRunW] [cBadW, cGoodW]).reports ∧
    (validateExecute [sRunW] [cBadW, cGoodW]).results
      = [sRunW].flatMap (fun s => [cBadW, cGoodW].flatMap (fun c => (runPair c s).1)) ∧
    (runPair cBadW sRunW).1 = [] :=
  orchestrator_fault_isolation [sRunW] [cBadW, cGoodW] cBadW sRunW "boom"
    (List.mem_cons_self cBadW [cGoodW]) (List.mem_cons_self sRunW []) rfl rfl rfl

/-! ## Claims C8 (corrected) and C9 (confirmed) -/

lemma findEmptySlots_of_all_none (ss : List MaterialSlot) (i : ℕ)
    (h : ∀ s ∈ ss, s.material = none) :
    findEmptySlots i ss = List.range' i ss.length := by
  induction ss generalizing i with
  | nil => simp [findEmptySlots]
  | cons s ssTail ih =>
    have hs : s.material = none := h s (List.mem_cons_self s ssTail)
    simp only [findEmptySlots]
    rw [if_pos hs, ih (i + 1) (fun t ht => h t (List.mem_cons_of_mem s ht))]
    simp [List.range'_succ]

lemma unusedSlotsFrom_of_all_none (ss : List MaterialSlot) (used : List ℕ) (i : ℕ)
    (h : ∀ s ∈ ss, s.material = none) :
    unusedSlotsFrom used i ss = [] := by
  induction ss generalizing i with
  | nil => simp [unusedSlotsFrom]
  | cons s ssTail ih =>
    have hs : s.material = none := h s (List.mem_cons_self s ssTail)
    simp only [unusedSlotsFrom]
    rw [if_neg (by simp [hs]), ih (i + 1) (fun t ht => h t (List.mem_cons_of_mem s ht))]

/-- C8 counterexample: a mesh with one material-holding slot referenced by
no polygon (because it has no polygons) yields ZERO findings rather than
the claimed single INFO finding — `_find_unused_slots` returns early on an
empty polygon list. -/
theorem unused_slot_no_polygons_counterexample :
    sNoPoly.type = "MESH" ∧
    sNoPoly.material_slots = [⟨some "Mat", "Mat"⟩] ∧
    sNoPoly.polygons = [] ∧
    materialCheck sNoPoly = [] :=
  ⟨rfl, rfl, rfl, rfl⟩

/-- C8 as amended: for a mesh object with exactly one material slot, that
slot holding a material, AT LEAST ONE polygon, and no polygon referencing
the slot's index, the material checker returns exactly one finding, an
INFO unused-slot finding naming slot 0, and no ERROR. -/
theorem single_unused_slot_info (obj : Subject) (slot : MaterialSlot) (mat : String)
    (ht : obj.type = "MESH") (hslots : obj.material_slots = [slot])
    (hmat : slot.material = some mat) (hpoly : obj.polygons ≠ [])
    (href : ∀ p ∈ obj.polygons, p.material_index ≠ 0) :
    ((materialCheck obj).map ValidationResult.severity) = [Severity.INFO] ∧
    ((materialCheck obj).head?.bind (fun r => findDetail r "unused_slot_indices"))
      = some (Detail.natList [0]) := by
  have hempty : findEmptySlots 0 [slot] = [] := by
    simp [findEmptySlots, hmat]
  have hused : ¬ (0 ∈ usedMaterialIndices obj.polygons) := by
    simp only [usedMaterialIndices, List.mem_map, not_exists]
    rintro p ⟨hp, hp0⟩
    exact href p hp hp0
  have hpolyE : obj.polygons.isEmpty = false := by
    cases hpl : obj.polygons with
    | nil => exact absurd hpl hpoly
    | cons a l => rfl
  have hunused : findUnusedSlots [slot] obj.polygons = [0] := by
    unfold findUnusedSlots
    rw [hpolyE]
    simp [unusedSlotsFrom, hmat, hused]
  unfold materialCheck
  rw [ht]
  simp [hslots, hempty, hunused, hmat, findDetail]

/-- C8 witness: the amended theorem applied to `sUnusedW`. -/
theorem single_unused_slot_info_witness :
    ((materialCheck sUnusedW).map ValidationResult.severity) = [Severity.INFO] ∧
    ((materialCheck sUnusedW).head?.bind (fun r => findDetail r "unused_slot_indices"))
      = some (Detail.natList [0]) :=
  single_unused_slot_info sUnusedW ⟨some "Mat", "Mat"⟩ "Mat" rfl rfl rfl
    (by decide) (by decide)

/-- C9: when every one of the (at least one) material slots is empty, the
checker returns exactly two findings: a WARNING listing every slot index as
empty, followed by an ERROR stating that all material slots are empty. -/
theorem all_slots_empty_two_findings (obj : Subject)
    (ht : obj.type = "MESH") (hne : obj.material_slots ≠ [])
    (hall : ∀ s ∈ obj.material_slots, s.material = none) :
    ((materialCheck obj).map ValidationResult.severity) = [Severity.WARNING, Severity.ERROR] ∧
    ((materialCheck obj).head?.bind (fun r => findDetail r "empty_slot_indices"))
      = some (Detail.natList (List.range obj.material_slots.length)) ∧
    (((materialCheck obj).getLast?).map ValidationResult.message)
      = some "All material slots are empty" := by
  have hslotsE : obj.material_slots.isEmpty = false := by
    cases hsl : obj.material_slots with
    | nil => exact absurd hsl hne
    | cons a l => rfl
  have hlen : 0 < obj.material_slots.length := List.length_pos.mpr hne
  have hE : findEmptySlots 0 obj.material_slots = List.range obj.material_slots.length := by
    rw [findEmptySlots_of_all_none _ 0 hall, List.range_eq_range']
  have hRangeNe : (List.range obj.material_slots.length).isEmpty = false := by
    cases hr : List.range obj.material_slots.length with
    | nil =>
      rw [List.range_eq_nil] at hr
      omega
    | cons a l => rfl
  have hAll : obj.material_slots.all (fun s => s.material == none) = true := by
    rw [List.all_eq_true]
    intro s hsm
    simp [hall s hsm]
  have hU : findUnusedSlots obj.material_slots obj.polygons = [] := by
    unfold findUnusedSlots
    split
    · rfl
    · exact unusedSlotsFrom_of_all_none _ _ _ hall
  unfold materialCheck
  rw [ht]
  simp [hslotsE, hE, hRangeNe, hAll, hU, hlen, findDetail]

/-- C9 witness: the theorem applied to `sAllEmptyW`. -/
theorem all_slots_empty_two_findings_witness :
    ((materialCheck sAllEmptyW).map ValidationResult.severity) = [Severity.WARNING, Severity.ERROR] ∧
    ((materialCheck sAllEmptyW).head?.bind (fun r => findDetail r "empty_slot_indices"))
      = some (Detail.natList (List.range sAllEmptyW.material_slots.length)) ∧
    (((materialCheck sAllEmptyW).getLast?).map ValidationResult.message)
      = some "All material slots are empty" :=
  all_slots_empty_two_findings sAllEmptyW rfl (by decide) (by decide)

/-! ## Claim C5 (corrected) -/

lemma collectCapped_cons {α β : Type} (pred : α → Bool) (mk : ℕ → α → β) (cap : ℕ)
    (acc : List β) (i : ℕ) (a : α) (as : List α) :
    collectCapped pred mk cap acc i (a :: as)
      = if pred a then
          (if cap ≤ (acc ++ [mk i a]).length then acc ++ [mk i a]
           else collectCapped pred mk cap (acc ++ [mk i a]) (i + 1) as)
        else collectCapped pred mk cap acc (i + 1) as := by
  simp only [collectCapped]

lemma collectCapped_length {α β : Type} (pred : α → Bool) (mk : ℕ → α → β) (cap : ℕ)
    (as : List α) (acc : List β) (i : ℕ) (h : acc.length < cap) :
    (collectCapped pred mk cap acc i as).length
      = min (acc.length + (as.filter pred).length) cap := by
  induction as generalizing acc i with
  | nil =>
    simp only [collectCapped, List.filter_nil, List.length_nil, Nat.add_zero]
    omega
  | cons a as ih =>
    have hfl : (List.filter pred (a :: as)).length
        = if pred a then (List.filter pred as).length + 1 else (List.filter pred as).length := by
      by_cases hp : pred a = true
      · rw [List.filter_cons_of_pos hp, if_pos hp]
        rfl
      · rw [List.filter_cons_of_neg (by simpa using hp), if_neg hp]
    rw [collectCapped_cons]
    by_cases hp : pred a = true
    · rw [if_pos hp, hfl, if_pos hp]
      by_cases hcap : cap ≤ (acc ++ [mk i a]).length
      · rw [if_pos hcap]
        have h1 : (acc ++ [mk i a]).length = acc.length + 1 := by simp
        rw [h1] at hcap ⊢
        omega
      · rw [if_neg hcap]
        have h1 : (acc ++ [mk i a]).length = acc.length + 1 := by simp
        have hlt : (acc ++ [mk i a]).length < cap := Nat.not_le.mp hcap
        rw [ih (acc ++ [mk i a]) (i + 1) hlt, h1]
        omega
    · rw [if_neg hp, hfl, if_neg hp, ih acc (i + 1) h]

lemma collectCapped_eq_nil_iff {α β : Type} (pred : α → Bool) (mk : ℕ → α → β) (cap : ℕ)
    (as : List α) (acc : List β) (i : ℕ) :
    collectCapped pred mk cap acc i as = [] ↔ (acc = [] ∧ as.filter pred = []) := by
  induction as generalizing acc i with
  | nil => simp [collectCapped]
  | cons a as ih =>
    rw [collectCapped_cons]
    by_cases hp : pred a = true
    · rw [if_pos hp, List.filter_cons_of_pos hp]
      by_cases hcap : cap ≤ (acc ++ [mk i a]).length
      · rw [if_pos hcap]
        simp
      · rw [if_neg hcap, ih]
        simp
    · rw [if_neg hp, List.filter_cons_of_neg (by simpa using hp), ih]

/-- C5 counterexample: with reporting cap `K = 0` the n-gon loop still
appends the first offending index before testing the cap, so the emitted
index list has length `1 ≠ min(true_count, 0) = 0` — the claimed invariant
fails for `K = 0`. -/
theorem truncated_listing_cap_zero_counterexample :
    ((checkNgons "Obj" 0 polysPenta).bind (fun r => findDetail r "face_indices"))
      = some (Detail.natList [0]) ∧
    ngonTotal polysPenta = 1 ∧
    min (ngonTotal polysPenta) 0 = 0 :=
  ⟨rfl, rfl, rfl⟩

/-- C5 as amended: for every reporting cap `K ≥ 1` (the defaults are 10 for
n-gons and small faces and 20 for face orientation), each emitted finding's
index list is exactly the capped list of length `min(true_count, K)`, while
the reported total in the same finding is the exact offending count, never
capped.  (The invariant fails at `K = 0`, where one index is still listed.) -/
theorem truncated_listing_invariant
    (K : ℕ) (n1 n2 n3 : String) (polys1 polys2 : List Polygon) (thr : ℚ) (bm : BMeshData)
    (res1 res2 res3 : ValidationResult)
    (hK : 1 ≤ K)
    (h1 : checkNgons n1 K polys1 = some res1)
    (h2 : checkSmallFaces n2 thr K polys2 = some res2)
    (h3 : checkInvertedFaces n3 K bm = some res3) :
    (findDetail res1 "face_indices" = some (Detail.natList (ngonIndexList K polys1)) ∧
     (ngonIndexList K polys1).length = min (ngonTotal polys1) K ∧
     findDetail res1 "total_ngons" = some (Detail.nat (ngonTotal polys1))) ∧
    (findDetail res2 "face_indices" = some (Detail.natList (smallFaceIndexList thr K polys2)) ∧
     (smallFaceIndexList thr K polys2).length = min (smallFaceTotal thr polys2) K ∧
     findDetail res2 "total_small_faces" = some (Detail.nat (smallFaceTotal thr polys2))) ∧
    (findDetail res3 "face_indices" = some (Detail.natList (flaggedIndexList K bm)) ∧
     (flaggedIndexList K bm).length = min (flaggedTotal bm) K ∧
     findDetail res3 "potentially_inverted_count" = some (Detail.nat (flaggedTotal bm))) := by
  have hKpos : (0 : ℕ) < K := hK
  refine ⟨?_, ?_, ?_⟩
  · have hlen : (ngonIndexList K polys1).length = min (ngonTotal polys1) K := by
      unfold ngonIndexList ngonTotal
      rw [collectCapped_length isNgon (fun i _ => i) K polys1 [] 0 (by simpa using hKpos)]
      simp
    simp only [checkNgons] at h1
    split at h1
    next => exact absurd h1 (by simp)
    next =>
      refine ⟨?_, hlen, ?_⟩ <;>
        · rw [← Option.some_inj.mp h1]
          simp [findDetail]
  · have hlen : (smallFaceIndexList thr K polys2).length = min (smallFaceTotal thr polys2) K := by
      unfold smallFaceIndexList smallFaceTotal
      rw [collectCapped_length (isSmallFace thr) (fun i _ => i) K polys2 [] 0 (by simpa using hKpos)]
      simp
    simp only [checkSmallFaces] at h2
    split at h2
    next => exact absurd h2 (by simp)
    next =>
      refine ⟨?_, hlen, ?_⟩ <;>
        · rw [← Option.some_inj.mp h2]
          simp [findDetail]
  · have hlen : (flaggedIndexList K bm).length = min (flaggedTotal bm) K := by
      unfold flaggedIndexList flaggedTotal countFlagged
      rw [collectCapped_length (isPotentiallyInverted (meanVec bm.verts)) (fun _ f => f.index)
        K bm.faces [] 0 (by simpa using hKpos)]
      simp
    simp only [checkInvertedFaces] at h3
    split at h3
    next => exact absurd h3 (by simp)
    next =>
      split at h3
      next => exact absurd h3 (by simp)
      next =>
        split at h3 <;> split at h3 <;>
          · refine ⟨?_, hlen, ?_⟩ <;>
              · rw [← Option.some_inj.mp h3]
                simp [findDetail, flaggedTotal]

/-! ## Claim C2 (confirmed) -/

/-- C2: whenever the face-orientation check flags at least one polygon, a
single finding is emitted whose severity is INFO exactly when the flagged
count is `< 5` AND the flagged ratio is `< 0.05` (WARNING otherwise), and
whose details carry the exact flagged count, the exact total face count,
and the flagged ratio (stored rounded to 3 decimal places, as the source
does). -/
theorem face_orientation_severity_policy (objName : String) (cap : ℕ) (bm : BMeshData)
    (hv : bm.verts ≠ []) (h1 : 1 ≤ flaggedTotal bm) :
    ((checkInvertedFaces objName cap bm).map ValidationResult.severity)
      = some (if flaggedTotal bm < 5 ∧ ((flaggedTotal bm : ℚ) / (bm.faces.length : ℚ)) < 5/100
              then Severity.INFO else Severity.WARNING) ∧
    ((checkInvertedFaces objName cap bm).bind (fun r => findDetail r "potentially_inverted_count"))
      = some (Detail.nat (flaggedTotal bm)) ∧
    ((checkInvertedFaces objName cap bm).bind (fun r => findDetail r "total_faces"))
      = some (Detail.nat bm.faces.length) ∧
    ((checkInvertedFaces objName cap bm).bind (fun r => findDetail r "inverted_ratio"))
      = some (Detail.rat (pyRoundTo ((flaggedTotal bm : ℚ) / (bm.faces.length : ℚ)) 3)) := by
  have hvE : bm.verts.isEmpty = false := by
    cases hbv : bm.verts with
    | nil => exact absurd hbv hv
    | cons a l => rfl
  have hfiltLen : 1 ≤ (bm.faces.filter (isPotentiallyInverted (meanVec bm.verts))).length := by
    simpa [flaggedTotal, countFlagged] using h1
  have hfacesPos : 0 < bm.faces.length :=
    Nat.lt_of_lt_of_le hfiltLen (List.length_filter_le _ _)
  have hcolNe : (flaggedIndexList cap bm).isEmpty = false := by
    cases hc : flaggedIndexList cap bm with
    | nil =>
      have := (collectCapped_eq_nil_iff (isPotentiallyInverted (meanVec bm.verts))
        (fun _ f => f.index) cap bm.faces [] 0).mp hc
      rw [this.2] at hfiltLen
      simp at hfiltLen
    | cons a l => rfl
  simp only [checkInvertedFaces, hvE, Bool.false_eq_true, if_false, hcolNe, if_pos hfacesPos,
    flaggedTotal]
  by_cases h5 : ((countFlagged (meanVec bm.verts) bm.faces : ℚ) / (bm.faces.length : ℚ) < 5/100 ∧
      countFlagged (meanVec bm.verts) bm.faces < 5)
  · rw [if_pos h5, if_pos ⟨h5.2, h5.1⟩]
    refine ⟨rfl, ?_, ?_, ?_⟩ <;> simp [findDetail]
  · rw [if_neg h5, if_neg (fun hh => h5 ⟨hh.2, hh.1⟩)]
    refine ⟨rfl, ?_, ?_, ?_⟩ <;> simp [findDetail]

lemma bmFlagW_flagged :
    isPotentiallyInverted (meanVec [(⟨0, 0, 0⟩ : Vec3)]) ⟨0, [⟨2, 0, 0⟩], ⟨-1, 0, 0⟩⟩ = true := by
  norm_num [isPotentiallyInverted, faceCenter, meanVec, vsum, Vec3.add, Vec3.zero, Vec3.smul,
    Vec3.sub, Vec3.dot]

lemma bmFlagW_total : flaggedTotal bmFlagW = 1 := by
  simp [flaggedTotal, countFlagged, bmFlagW, List.filter_cons, bmFlagW_flagged]

/-- C2 witness: the severity-policy theorem applied to `bmFlagW` (1 of 1
faces flagged, ratio 1, so the WARNING branch of the policy). -/
theorem face_orientation_severity_policy_witness :
    ((checkInvertedFaces "Sphere" 20 bmFlagW).map ValidationResult.severity)
      = some (if flaggedTotal bmFlagW < 5 ∧
                ((flaggedTotal bmFlagW : ℚ) / (bmFlagW.faces.length : ℚ)) < 5/100
              then Severity.INFO else Severity.WARNING) ∧
    ((checkInvertedFaces "Sphere" 20 bmFlagW).bind (fun r => findDetail r "potentially_inverted_count"))
      = some (Detail.nat (flaggedTotal bmFlagW)) ∧
    ((checkInvertedFaces "Sphere" 20 bmFlagW).bind (fun r => findDetail r "total_faces"))
      = some (Detail.nat bmFlagW.faces.length) ∧
    ((checkInvertedFaces "Sphere" 20 bmFlagW).bind (fun r => findDetail r "inverted_ratio"))
      = some (Detail.rat (pyRoundTo ((flaggedTotal bmFlagW : ℚ) / (bmFlagW.faces.length : ℚ)) 3)) :=
  face_orientation_severity_policy "Sphere" 20 bmFlagW (by simp [bmFlagW])
    (by rw [bmFlagW_total])

/-- C5 witness: the amended truncation invariant applied at cap `K = 10` to
a one-pentagon mesh, a one-small-face mesh, and the flagged mesh `bmFlagW`. -/
theorem truncated_listing_invariant_witness :
    (ngonIndexList 10 polysPenta).length = min (ngonTotal polysPenta) 10 ∧
    (smallFaceIndexList 1 10 polysSmallW).length = min (smallFaceTotal 1 polysSmallW) 10 ∧
    (flaggedIndexList 10 bmFlagW).length = min (flaggedTotal bmFlagW) 10 := by
  obtain ⟨r1, h1⟩ := Option.isSome_iff_exists.mp
    (show (checkNgons "G" 10 polysPenta).isSome = true from rfl)
  obtain ⟨r2, h2⟩ := Option.isSome_iff_exists.mp
    (show (checkSmallFaces "S" 1 10 polysSmallW).isSome = true from rfl)
  have hcol : flaggedIndexList 10 bmFlagW = [0] := by
    simp [flaggedIndexList, bmFlagW, collectCapped, bmFlagW_flagged]
  have h3s : (checkInvertedFaces "F" 10 bmFlagW).isSome = true := by
    have hV : bmFlagW.verts.isEmpty = false := rfl
    simp only [checkInvertedFaces, hcol, hV, Bool.false_eq_true, if_false, List.isEmpty_cons]
    rw [if_pos (show 0 < bmFlagW.faces.length by norm_num [bmFlagW])]
    split <;> rfl
  obtain ⟨r3, h3⟩ := Option.isSome_iff_exists.mp h3s
  have H := truncated_listing_invariant 10 "G" "S" "F" polysPenta polysSmallW 1 bmFlagW
    r1 r2 r3 (by norm_num) h1 h2 h3
  exact ⟨H.1.2.1, H.2.1.2.1, H.2.2.2.1⟩
